import Mathlib

/-!
Verification of the Study-Buddy pomodoro timer core
(`src/extension/background.js`, `src/extension/popup.js`).

The timer state machine is embedded shallowly: JS numbers become `Int`
(all quantities involved are integers: epoch milliseconds, minute
settings, counters), the `PomodoroTimer` instance becomes the `Timer`
structure, and each method becomes a pure function from the old state
(plus the `Date.now()` value, where the method reads it) to the new
state.  JS truthiness of number-or-null fields (where both `null` and
`0` are falsy) and JS arithmetic coercion of `null` to `0` are modelled
explicitly, since the source relies on them.
-/

namespace StudyBuddy

/-- The three phase strings of the source: "work", "break", "longBreak". -/
inductive Phase where
  | work
  | shortBreak
  | longBreak
deriving DecidableEq, Repr

/-- The `settings` object of `PomodoroTimer` (all four fields in minutes,
except `longBreakInterval` which is a count of work sessions). -/
structure TimerSettings where
  workTime : Int
  shortBreak : Int
  longBreak : Int
  longBreakInterval : Int
deriving DecidableEq, Repr

/-- The default settings from the constructor (background.js lines 11-16). -/
def defaultSettings : TimerSettings :=
  { workTime := 25, shortBreak := 5, longBreak := 15, longBreakInterval := 4 }

/-- The mutable fields of a `PomodoroTimer` instance.  `timerStartTime` is
number-or-null in JS, hence `Option Int`. -/
structure Timer where
  isTimerRunning : Bool
  currentPhase : Phase
  timeRemainingInMilliseconds : Int
  completedPomodoros : Int
  timerStartTime : Option Int
  settings : TimerSettings
deriving DecidableEq, Repr

/-- JS truthiness of a number-or-null value: `null` and `0` are both falsy. -/
def optIntTruthy : Option Int → Bool
  | none => false
  | some n => n != 0

/-- JS numeric coercion of a number-or-null value: `null` coerces to `0`
in arithmetic such as `Date.now() - this.timerStartTime`. -/
def optIntToNumber : Option Int → Int
  | none => 0
  | some n => n

/-- `getPhaseTimeInMilliseconds(phase)` (background.js lines 106-117).
The JS `default` case is unreachable for the three phase strings. -/
def getPhaseTimeInMilliseconds (s : TimerSettings) (phase : Phase) : Int :=
  match phase with
  | Phase.work => s.workTime * 60 * 1000
  | Phase.shortBreak => s.shortBreak * 60 * 1000
  | Phase.longBreak => s.longBreak * 60 * 1000

/-- `initializeTimer()` (background.js lines 120-126). -/
def initializeTimer (t : Timer) : Timer :=
  if t.timeRemainingInMilliseconds = 0 then
    { t with timeRemainingInMilliseconds :=
        getPhaseTimeInMilliseconds t.settings t.currentPhase }
  else t

/-- A freshly constructed timer with settings `s` and no persisted state:
the constructor field defaults (background.js lines 2-16) followed by
`initializeTimer` (loading finds nothing to restore). -/
def initialTimer (s : TimerSettings) : Timer :=
  initializeTimer
    { isTimerRunning := false, currentPhase := Phase.work,
      timeRemainingInMilliseconds := 0, completedPomodoros := 0,
      timerStartTime := none, settings := s }

/-- A fresh timer with the default settings. -/
def freshTimer : Timer := initialTimer defaultSettings

/-- `start()` (background.js lines 129-149); `now` is `Date.now()`.
The alarm bookkeeping has no effect on the timer fields. -/
def start (now : Int) (t : Timer) : Timer :=
  if t.isTimerRunning then t
  else { t with isTimerRunning := true, timerStartTime := some now }

/-- `stop()` (background.js lines 152-173); `now` is `Date.now()`.
`Date.now() - this.timerStartTime` coerces a null start time to `0`. -/
def stop (now : Int) (t : Timer) : Timer :=
  if !t.isTimerRunning then t
  else
    let elapsedTime := now - optIntToNumber t.timerStartTime
    { t with
      timeRemainingInMilliseconds :=
        max 0 (t.timeRemainingInMilliseconds - elapsedTime),
      isTimerRunning := false,
      timerStartTime := none }

/-- The snapshot object returned by `getState()` (background.js lines 296-304). -/
structure StateSnapshot where
  isRunning : Bool
  currentPhase : Phase
  timeRemaining : Int
  totalTime : Int
  completedPomodoros : Int
  startTime : Option Int
  settings : TimerSettings
deriving DecidableEq, Repr

/-- `getState()` (background.js lines 284-305); `now` is `Date.now()`.
The guard `this.isTimerRunning && this.timerStartTime` uses JS
truthiness, so a start time of exactly `0` (like `null`) skips the
elapsed-time computation. -/
def getState (now : Int) (t : Timer) : StateSnapshot :=
  let currentTimeRemaining :=
    if t.isTimerRunning && optIntTruthy t.timerStartTime then
      max 0 (t.timeRemainingInMilliseconds - (now - optIntToNumber t.timerStartTime))
    else t.timeRemainingInMilliseconds
  { isRunning := t.isTimerRunning,
    currentPhase := t.currentPhase,
    timeRemaining := currentTimeRemaining,
    totalTime := getPhaseTimeInMilliseconds t.settings t.currentPhase,
    completedPomodoros := t.completedPomodoros,
    startTime := t.timerStartTime,
    settings := t.settings }

/-- The partial settings object accepted by `updateSettings` (each
recognized option may be present or absent). -/
structure NewSettings where
  workTime : Option Int
  shortBreak : Option Int
  longBreak : Option Int
  longBreakInterval : Option Int
deriving DecidableEq, Repr

/-- The spread-merge `{ ...this.settings, ...newSettings }`
(background.js line 94): present fields override, absent fields keep
their prior values. -/
def mergeSettings (s : TimerSettings) (ns : NewSettings) : TimerSettings :=
  { workTime := ns.workTime.getD s.workTime,
    shortBreak := ns.shortBreak.getD s.shortBreak,
    longBreak := ns.longBreak.getD s.longBreak,
    longBreakInterval := ns.longBreakInterval.getD s.longBreakInterval }

/-- `updateSettings(newSettings)` (background.js lines 93-103): merge
unconditionally, then reseed the remaining time if the timer is not
running.  The method performs no range validation. -/
def updateSettings (t : Timer) (ns : NewSettings) : Timer :=
  let s := mergeSettings t.settings ns
  if !t.isTimerRunning then
    { t with
      settings := s,
      timeRemainingInMilliseconds := getPhaseTimeInMilliseconds s t.currentPhase }
  else { t with settings := s }

/-- `complete()` (background.js lines 189-233), state effect only; `now`
is `Date.now()` as read inside the inner `stop()`.  The JS `%` on
integers is truncating division remainder, i.e. `Int.tmod`. -/
def complete (now : Int) (t0 : Timer) : Timer :=
  let t1 := stop now t0
  let t2 :=
    if t1.currentPhase = Phase.work then
      let t := { t1 with completedPomodoros := t1.completedPomodoros + 1 }
      if Int.tmod t.completedPomodoros t.settings.longBreakInterval = 0 then
        { t with currentPhase := Phase.longBreak }
      else
        { t with currentPhase := Phase.shortBreak }
    else { t1 with currentPhase := Phase.work }
  { t2 with timeRemainingInMilliseconds :=
      getPhaseTimeInMilliseconds t2.settings t2.currentPhase }

/-- The `timerState` object written by `saveTimerState()` (background.js
lines 66-73).  `timeRemaining` is `Option Int` because `loadTimerState`
guards its restore with a `typeof === "number"` check; `saveTimerState`
itself always writes a number. -/
structure PersistedClock where
  isRunning : Bool
  currentPhase : Phase
  completedPomodoros : Int
  startTime : Option Int
  timeRemaining : Option Int
deriving DecidableEq, Repr

/-- `saveTimerState()` (background.js lines 64-78): the projection of the
timer fields that is written to storage.  The `settings` field is not
part of this object (it is persisted separately, under the
`timerSettings` key, by `updateSettings`). -/
def saveTimerState (t : Timer) : PersistedClock :=
  { isRunning := t.isTimerRunning,
    currentPhase := t.currentPhase,
    completedPomodoros := t.completedPomodoros,
    startTime := t.timerStartTime,
    timeRemaining := some t.timeRemainingInMilliseconds }

/-- `loadTimerState()` (background.js lines 25-61) applied to instance `t`
with `result.timerState = stored`.  `isRunning || false` and
`completedPomodoros || 0` are identities on booleans and numbers
respectively; `currentPhase || "work"` is an identity because every
phase string is truthy; `startTime || null` maps a stored start time of
exactly `0` to `null` (JS truthiness).  The field
`timeRemainingInMilliseconds` is a number throughout the program, so
the JS condition `=== 0 || == null` reduces to `= 0`. -/
def loadTimerState (t : Timer) (stored : Option PersistedClock) : Timer :=
  match stored with
  | none => t
  | some p =>
    let t1 := { t with
      isTimerRunning := p.isRunning,
      currentPhase := p.currentPhase,
      completedPomodoros := p.completedPomodoros,
      timerStartTime := if optIntTruthy p.startTime then p.startTime else none }
    let t2 : Timer :=
      match p.timeRemaining with
      | some r => { t1 with timeRemainingInMilliseconds := r }
      | none => t1
    if t2.isTimerRunning = false ∧ t2.timeRemainingInMilliseconds = 0 then
      { t2 with timeRemainingInMilliseconds :=
          getPhaseTimeInMilliseconds t2.settings t2.currentPhase }
    else t2

/-- The error surfaced by the settings form when a value is out of range. -/
inductive ConfigError where
  | invalidConfig
deriving DecidableEq, Repr

/-- The range validation in the popup's save-settings handler
(popup.js lines 412-426). -/
def validTimerSettings (workTime shortBreak longBreak longBreakInterval : Int) : Bool :=
  !(workTime < 1 || workTime > 60 || shortBreak < 1 || shortBreak > 30 ||
    longBreak < 1 || longBreak > 60 || longBreakInterval < 2 || longBreakInterval > 10)

/-- The popup's save-settings click flow (popup.js lines 404-456): parse
the four fields, validate the ranges, and only on success send the
`updateSettings` message to the background timer; on failure alert and
return without touching the timer. -/
def saveSettingsFlow (workTime shortBreak longBreak longBreakInterval : Int)
    (t : Timer) : Except ConfigError Timer :=
  if validTimerSettings workTime shortBreak longBreak longBreakInterval then
    Except.ok (updateSettings t
      { workTime := some workTime, shortBreak := some shortBreak,
        longBreak := some longBreak, longBreakInterval := some longBreakInterval })
  else Except.error ConfigError.invalidConfig

/-- The `data` payload of the `timerCompleted` runtime message
(background.js lines 219-223). -/
structure CompletionEvent where
  completedPhase : Phase
  nextPhase : Phase
  completedPomodoros : Int
deriving DecidableEq, Repr

/-- The phase display names used by `showCompletionNotification`
(background.js lines 237-241). -/
def phaseName : Phase → String
  | Phase.work => "work session"
  | Phase.shortBreak => "short break"
  | Phase.longBreak => "long break"

/-- The title and message built by `showCompletionNotification()`
(background.js lines 236-261), which reads `this.currentPhase` while it
still holds the phase that just completed and predicts the upcoming
phase from `completedPomodoros + 1`. -/
def completionNotificationText (t : Timer) : String × String :=
  let completedPhaseName := phaseName t.currentPhase
  let nextPhaseName :=
    if t.currentPhase = Phase.work then
      let upcomingCompletedCount := t.completedPomodoros + 1
      if Int.tmod upcomingCompletedCount t.settings.longBreakInterval = 0 then
        "long break"
      else "short break"
    else "work session"
  (completedPhaseName ++ " complete!", "time for your " ++ nextPhaseName)

/-- The externally visible steps of `complete()`, in program order. -/
inductive CompleteStep where
  | stopTimer
  | showCompletionText (title message : String)
  | incrementCount
  | setPhase (p : Phase)
  | setRemaining (ms : Int)
  | persistState
  | sendCompletionMessage (e : CompletionEvent)
deriving DecidableEq, Repr

/-- `true` exactly on the `timerCompleted` message emission step. -/
def isCompletionMessage : CompleteStep → Bool
  | CompleteStep.sendCompletionMessage _ => true
  | _ => false

/-- `true` exactly on the steps that mutate `currentPhase` or
`completedPomodoros`. -/
def isClockMutation : CompleteStep → Bool
  | CompleteStep.setPhase _ => true
  | CompleteStep.incrementCount => true
  | _ => false

/-- `complete()` (background.js lines 189-233) again, now recording the
ordered list of externally visible steps next to the final state:
`stop()`, then `showCompletionNotification()`, then the phase/counter
mutations, then the remaining-time reseed, then `saveTimerState()`,
then the `timerCompleted` message whose payload reads the saved
`completedPhase` but the already-mutated `currentPhase` and
`completedPomodoros`. -/
def completeTrace (now : Int) (t0 : Timer) : List CompleteStep × Timer :=
  let t1 := stop now t0
  let notif := completionNotificationText t1
  let completedPhase := t1.currentPhase
  let mutationSteps :=
    if t1.currentPhase = Phase.work then
      let t := { t1 with completedPomodoros := t1.completedPomodoros + 1 }
      if Int.tmod t.completedPomodoros t.settings.longBreakInterval = 0 then
        ([CompleteStep.incrementCount, CompleteStep.setPhase Phase.longBreak],
         { t with currentPhase := Phase.longBreak })
      else
        ([CompleteStep.incrementCount, CompleteStep.setPhase Phase.shortBreak],
         { t with currentPhase := Phase.shortBreak })
    else
      ([CompleteStep.setPhase Phase.work], { t1 with currentPhase := Phase.work })
  let t2 := mutationSteps.2
  let newRemaining := getPhaseTimeInMilliseconds t2.settings t2.currentPhase
  let t3 := { t2 with timeRemainingInMilliseconds := newRemaining }
  let event : CompletionEvent :=
    { completedPhase := completedPhase,
      nextPhase := t3.currentPhase,
      completedPomodoros := t3.completedPomodoros }
  ([CompleteStep.stopTimer, CompleteStep.showCompletionText notif.1 notif.2] ++
     mutationSteps.1 ++
     [CompleteStep.setRemaining newRemaining, CompleteStep.persistState,
      CompleteStep.sendCompletionMessage event],
   t3)

/-- Formalization of the ordering property asserted by the spec: every
emission of the completion-event tuple occurs strictly before every
mutation of the phase field or of the completed counter. -/
def messageBeforeMutation (l : List CompleteStep) : Prop :=
  ∀ i j : Fin l.length, isCompletionMessage (l.get i) = true →
    isClockMutation (l.get j) = true → (i : Nat) < (j : Nat)

instance (l : List CompleteStep) : Decidable (messageBeforeMutation l) := by
  unfold messageBeforeMutation
  infer_instance

/-- The `pomodoroTimer` alarm handler (background.js lines 386-406),
state effect on the timer fields: complete when running and out of
time, otherwise leave the timer untouched (the other branches only log
or clear the alarm). -/
def tick (now : Int) (t : Timer) : Timer :=
  let st := getState now t
  if st.isRunning = true ∧ st.timeRemaining ≤ 0 then complete now t
  else t

/-- A start or stop command, as issued by the popup control surface. -/
inductive ClockOp where
  | startOp
  | stopOp
deriving DecidableEq, Repr

/-- Apply one command at wall-clock time `now`. -/
def applyOp (op : ClockOp) (now : Int) (t : Timer) : Timer :=
  match op with
  | ClockOp.startOp => start now t
  | ClockOp.stopOp => stop now t

/-- Run a timestamped command sequence, oldest first. -/
def runTrace (ops : List (Int × ClockOp)) (t : Timer) : Timer :=
  match ops with
  | [] => t
  | (now, op) :: rest => runTrace rest (applyOp op now t)

/-- The timestamps of `ops` are nondecreasing, bounded below by `lo` and
above by `hi` (the wall clock never runs backwards between commands,
and `hi` is a read time after the last command). -/
def timesBounded (lo : Int) : List (Int × ClockOp) → Int → Prop
  | [], hi => lo ≤ hi
  | (now, _) :: rest, hi => lo ≤ now ∧ timesBounded now rest hi

/-- The valid ranges of the four settings fields (spec section 3; they are
the ranges enforced by the popup validation). -/
def ValidSettings (s : TimerSettings) : Prop :=
  1 ≤ s.workTime ∧ s.workTime ≤ 60 ∧
  1 ≤ s.shortBreak ∧ s.shortBreak ≤ 30 ∧
  1 ≤ s.longBreak ∧ s.longBreak ≤ 60 ∧
  2 ≤ s.longBreakInterval ∧ s.longBreakInterval ≤ 10

/-- The clock invariant at wall-clock time `now`: the frozen remaining
time is within the current phase duration, and any recorded start time
lies in the past. -/
def ClockInv (now : Int) (t : Timer) : Prop :=
  0 ≤ t.timeRemainingInMilliseconds ∧
  t.timeRemainingInMilliseconds ≤ getPhaseTimeInMilliseconds t.settings t.currentPhase ∧
  (∀ s, t.timerStartTime = some s → s ≤ now) ∧
  (t.isTimerRunning = true → t.timerStartTime ≠ none)

/-! ### Helper lemmas -/

@[simp]
theorem stop_currentPhase (now : Int) (t : Timer) :
    (stop now t).currentPhase = t.currentPhase := by
  unfold stop; split <;> rfl

@[simp]
theorem stop_completedPomodoros (now : Int) (t : Timer) :
    (stop now t).completedPomodoros = t.completedPomodoros := by
  unfold stop; split <;> rfl

@[simp]
theorem stop_settings (now : Int) (t : Timer) :
    (stop now t).settings = t.settings := by
  unfold stop; split <;> rfl

@[simp]
theorem stop_not_running (now : Int) (t : Timer) :
    (stop now t).isTimerRunning = false := by
  unfold stop; split <;> simp_all

theorem stop_of_not_running (now : Int) (t : Timer)
    (h : t.isTimerRunning = false) : stop now t = t := by
  unfold stop; simp [h]

@[simp]
theorem complete_settings (now : Int) (t : Timer) :
    (complete now t).settings = t.settings := by
  unfold complete
  dsimp only
  split
  · split <;> simp [stop_settings]
  · simp [stop_settings]

@[simp]
theorem complete_not_running (now : Int) (t : Timer) :
    (complete now t).isTimerRunning = false := by
  unfold complete
  dsimp only
  split
  · split <;> simp [stop_not_running]
  · simp [stop_not_running]

theorem complete_remaining_seeded (now : Int) (t : Timer) :
    (complete now t).timeRemainingInMilliseconds =
      getPhaseTimeInMilliseconds (complete now t).settings
        (complete now t).currentPhase := by
  rfl

theorem complete_changes_phase (now : Int) (t : Timer) :
    (complete now t).currentPhase ≠ t.currentPhase := by
  unfold complete
  dsimp only
  rw [stop_currentPhase]
  by_cases hw : t.currentPhase = Phase.work
  · simp only [hw, if_pos]
    split <;> simp [hw]
  · simp only [hw, if_neg, not_false_iff]
    simp only [ne_eq]
    exact fun h => hw h.symm

theorem complete_work_case (now : Int) (t : Timer)
    (hw : t.currentPhase = Phase.work) (hc : 0 ≤ t.completedPomodoros) :
    (complete now t).completedPomodoros = t.completedPomodoros + 1 ∧
    0 < (complete now t).completedPomodoros ∧
    (complete now t).currentPhase =
      (if Int.tmod (t.completedPomodoros + 1) t.settings.longBreakInterval = 0
       then Phase.longBreak else Phase.shortBreak) := by
  unfold complete
  dsimp only
  rw [stop_currentPhase, stop_completedPomodoros, stop_settings]
  simp only [hw, if_pos]
  split <;> simp_all <;> omega

theorem complete_nonwork_case (now : Int) (t : Timer)
    (hw : t.currentPhase ≠ Phase.work) :
    (complete now t).currentPhase = Phase.work ∧
    (complete now t).completedPomodoros = t.completedPomodoros := by
  unfold complete
  dsimp only
  rw [stop_currentPhase]
  simp only [hw, if_neg, not_false_iff]
  simp [stop_completedPomodoros]

theorem tick_of_not_running (now : Int) (t : Timer)
    (h : t.isTimerRunning = false) : tick now t = t := by
  unfold tick getState
  simp [h]

/-! ### Claim C8: start is a no-op while running, and only sets the
start timestamp and the running flag otherwise -/

/-- C8: `start()` is a no-op when the clock is already running; otherwise
it sets `startedAtEpochMs` to the current time and `running` to true;
in every case `baselineRemainingMs`, `phase`, `completedCount` and
`durations` are unchanged. -/
theorem start_noop_when_running_and_frame (now : Int) (t : Timer) :
    (t.isTimerRunning = true → start now t = t) ∧
    (t.isTimerRunning = false →
      (start now t).isTimerRunning = true ∧
      (start now t).timerStartTime = some now) ∧
    (start now t).timeRemainingInMilliseconds = t.timeRemainingInMilliseconds ∧
    (start now t).currentPhase = t.currentPhase ∧
    (start now t).completedPomodoros = t.completedPomodoros ∧
    (start now t).settings = t.settings := by
  unfold start
  cases h : t.isTimerRunning <;> simp [h]

/-- Witness for C8 at `now = 1` on the fresh default timer. -/
theorem start_noop_when_running_and_frame_witness :
    (freshTimer.isTimerRunning = true → start 1 freshTimer = freshTimer) ∧
    (freshTimer.isTimerRunning = false →
      (start 1 freshTimer).isTimerRunning = true ∧
      (start 1 freshTimer).timerStartTime = some 1) ∧
    (start 1 freshTimer).timeRemainingInMilliseconds =
      freshTimer.timeRemainingInMilliseconds ∧
    (start 1 freshTimer).currentPhase = freshTimer.currentPhase ∧
    (start 1 freshTimer).completedPomodoros = freshTimer.completedPomodoros ∧
    (start 1 freshTimer).settings = freshTimer.settings :=
  start_noop_when_running_and_frame 1 freshTimer

/-! ### Claim C9: stop is idempotent -/

/-- C9: calling `stop()` twice in a row has the same effect as calling it
once; the second call is a no-op. -/
theorem stop_twice_equals_once (t : Timer) (n1 n2 : Int) :
    stop n2 (stop n1 t) = stop n1 t :=
  stop_of_not_running n2 (stop n1 t) (stop_not_running n1 t)

/-! ### Claim C4: long-break cadence -/

/-- C4: completing a Work phase whose resulting `completedCount` satisfies
`completedCount % longBreakInterval == 0` (the resulting count is
positive) transitions to LongBreak, every other Work completion to
ShortBreak, and any non-Work completion to Work; with the default
settings (`workMinutes=25, longBreakInterval=4`), completing phases
from a fresh clock yields Work → ShortBreak → Work → ShortBreak → Work
→ ShortBreak → Work → LongBreak with `completedCount = 4` after the
4th Work completion (the 7th completion overall). -/
theorem work_completion_long_break_cadence :
    (∀ (now : Int) (t : Timer), t.currentPhase = Phase.work →
      0 ≤ t.completedPomodoros →
      (complete now t).completedPomodoros = t.completedPomodoros + 1 ∧
      0 < (complete now t).completedPomodoros ∧
      (complete now t).currentPhase =
        (if Int.tmod (t.completedPomodoros + 1) t.settings.longBreakInterval = 0
         then Phase.longBreak else Phase.shortBreak)) ∧
    (∀ (now : Int) (t : Timer), t.currentPhase ≠ Phase.work →
      (complete now t).currentPhase = Phase.work ∧
      (complete now t).completedPomodoros = t.completedPomodoros) ∧
    List.map (fun k => ((complete 0)^[k] freshTimer).currentPhase)
      [0, 1, 2, 3, 4, 5, 6, 7] =
      [Phase.work, Phase.shortBreak, Phase.work, Phase.shortBreak, Phase.work,
       Phase.shortBreak, Phase.work, Phase.longBreak] ∧
    ((complete 0)^[7] freshTimer).completedPomodoros = 4 :=
  ⟨fun now t hw hc => complete_work_case now t hw hc,
   fun now t hw => complete_nonwork_case now t hw,
   by decide, by decide⟩

/-- Witness for C4: the first Work completion of a fresh clock. -/
theorem work_completion_long_break_cadence_witness :
    freshTimer.currentPhase = Phase.work ∧
    0 ≤ freshTimer.completedPomodoros ∧
    ((complete 0 freshTimer).completedPomodoros = freshTimer.completedPomodoros + 1 ∧
     0 < (complete 0 freshTimer).completedPomodoros ∧
     (complete 0 freshTimer).currentPhase =
       (if Int.tmod (freshTimer.completedPomodoros + 1)
            freshTimer.settings.longBreakInterval = 0
        then Phase.longBreak else Phase.shortBreak)) :=
  ⟨by decide, by decide,
   work_completion_long_break_cadence.1 0 freshTimer (by decide) (by decide)⟩

/-! ### Claim C5: tick is a guarded one-shot completion -/

/-- C5: `tick(now)` is a no-op when `running` is false; when running with
`effectiveRemainingMs(now) ≤ 0` it completes the current phase exactly
once: afterwards `running` is false (no auto-restart), the phase has
advanced, `baselineRemainingMs` is the full duration of the new phase,
and any immediately following tick is a no-op. -/
theorem tick_completes_exactly_once (now : Int) (t : Timer) :
    (t.isTimerRunning = false → tick now t = t) ∧
    (t.isTimerRunning = true → (getState now t).timeRemaining ≤ 0 →
      tick now t = complete now t ∧
      (tick now t).isTimerRunning = false ∧
      (tick now t).currentPhase ≠ t.currentPhase ∧
      (tick now t).timeRemainingInMilliseconds =
        getPhaseTimeInMilliseconds (tick now t).settings (tick now t).currentPhase ∧
      ∀ later : Int, tick later (tick now t) = tick now t) := by
  constructor
  · exact tick_of_not_running now t
  · intro hrun hrem
    have hs : (getState now t).isRunning = true := hrun
    have ht : tick now t = complete now t := by
      unfold tick
      dsimp only
      rw [if_pos ⟨hs, hrem⟩]
    refine ⟨ht, ?_, ?_, ?_, ?_⟩
    · rw [ht]; exact complete_not_running now t
    · rw [ht]; exact complete_changes_phase now t
    · rw [ht]; exact complete_remaining_seeded now t
    · intro later
      apply tick_of_not_running
      rw [ht]; exact complete_not_running now t

/-- Witness for C5: a fresh default clock started at `t=5` and ticked at
the exact moment its work phase elapses. -/
theorem tick_completes_exactly_once_witness :
    (start 5 freshTimer).isTimerRunning = true ∧
    (getState 1500005 (start 5 freshTimer)).timeRemaining ≤ 0 ∧
    (tick 1500005 (start 5 freshTimer) = complete 1500005 (start 5 freshTimer) ∧
     (tick 1500005 (start 5 freshTimer)).isTimerRunning = false ∧
     (tick 1500005 (start 5 freshTimer)).currentPhase ≠
       (start 5 freshTimer).currentPhase ∧
     (tick 1500005 (start 5 freshTimer)).timeRemainingInMilliseconds =
       getPhaseTimeInMilliseconds (tick 1500005 (start 5 freshTimer)).settings
         (tick 1500005 (start 5 freshTimer)).currentPhase ∧
     ∀ later : Int,
       tick later (tick 1500005 (start 5 freshTimer)) =
         tick 1500005 (start 5 freshTimer)) :=
  ⟨by decide, by decide,
   (tick_completes_exactly_once 1500005 (start 5 freshTimer)).2
     (by decide) (by decide)⟩

/-! ### Claim C2: freeze-on-stop makes resume-from-pause exact -/

theorem getState_running (now : Int) (t : Timer) (s : Int)
    (hrun : t.isTimerRunning = true) (hst : t.timerStartTime = some s)
    (hs : s ≠ 0) :
    (getState now t).timeRemaining =
      max 0 (t.timeRemainingInMilliseconds - (now - s)) := by
  unfold getState
  dsimp only
  simp [hrun, hst, optIntTruthy, optIntToNumber, hs]

theorem stop_running_eq (now : Int) (t : Timer) (s : Int)
    (hrun : t.isTimerRunning = true) (hst : t.timerStartTime = some s) :
    stop now t = { t with
      timeRemainingInMilliseconds :=
        max 0 (t.timeRemainingInMilliseconds - (now - s)),
      isTimerRunning := false,
      timerStartTime := none } := by
  unfold stop
  simp [hrun, hst, optIntToNumber]

theorem start_of_not_running (now : Int) (t : Timer)
    (h : t.isTimerRunning = false) :
    start now t = { t with isTimerRunning := true, timerStartTime := some now } := by
  unfold start
  simp [h]

/-- C2 counterexample: the scenario taken literally at wall-clock time
`t=0` fails, because `getState`'s guard
`this.isTimerRunning && this.timerStartTime` treats a start timestamp
of exactly `0` as falsy (like `null`), so the elapsed time is not
subtracted: after `start()` at epoch 0, `getState` at 10000 reports the
full `25*60*1000`, not `25*60*1000 - 10000`. -/
theorem resume_scenario_fails_at_epoch_zero :
    (getState 10000 (start 0 freshTimer)).timeRemaining ≠ 25 * 60 * 1000 - 10000 ∧
    (getState 10000 (start 0 freshTimer)).timeRemaining = 25 * 60 * 1000 := by
  decide

/-- C2 (amended): for every running clock whose start timestamp is
`some s`, `stop()` at time `now` sets `baselineRemainingMs` to
`max(0, baselineRemainingMs - (now - s))`, clears `running` and the
start timestamp; and the default-settings scenario holds at any
positive start epoch `t0` (rather than the literal `t0 = 0`): `start`
at `t0`, `getState` at `t0+10000` reports `25*60*1000 - 10000`; `stop`
at `t0+10000` freezes exactly that and clears `running`; `start` at
`t0+50000` then `getState` at `t0+60000` reports
`25*60*1000 - 10000 - 10000`. -/
theorem stop_freezes_and_resume_exact (t : Timer) (now s t0 : Int)
    (hrun : t.isTimerRunning = true) (hst : t.timerStartTime = some s)
    (ht0 : 0 < t0) :
    ((stop now t).timeRemainingInMilliseconds =
       max 0 (t.timeRemainingInMilliseconds - (now - s)) ∧
     (stop now t).isTimerRunning = false ∧
     (stop now t).timerStartTime = none) ∧
    ((getState (t0 + 10000) (start t0 freshTimer)).timeRemaining =
       25 * 60 * 1000 - 10000 ∧
     (stop (t0 + 10000) (start t0 freshTimer)).timeRemainingInMilliseconds =
       25 * 60 * 1000 - 10000 ∧
     (stop (t0 + 10000) (start t0 freshTimer)).isTimerRunning = false ∧
     (getState (t0 + 60000)
        (start (t0 + 50000)
          (stop (t0 + 10000) (start t0 freshTimer)))).timeRemaining =
       25 * 60 * 1000 - 10000 - 10000) := by
  have hfr : freshTimer.isTimerRunning = false := rfl
  have hfrem : freshTimer.timeRemainingInMilliseconds = 1500000 := rfl
  have ha := start_of_not_running t0 freshTimer hfr
  have ha_run : (start t0 freshTimer).isTimerRunning = true := by rw [ha]
  have ha_st : (start t0 freshTimer).timerStartTime = some t0 := by rw [ha]
  have ha_rem : (start t0 freshTimer).timeRemainingInMilliseconds = 1500000 := by
    rw [ha]; exact hfrem
  constructor
  · have h1 := stop_running_eq now t s hrun hst
    rw [h1]
    exact ⟨rfl, rfl, rfl⟩
  · have hb := stop_running_eq (t0 + 10000) (start t0 freshTimer) t0 ha_run ha_st
    have hb_rem : (stop (t0 + 10000) (start t0 freshTimer)).timeRemainingInMilliseconds
        = 1490000 := by
      rw [hb]
      show max 0 ((start t0 freshTimer).timeRemainingInMilliseconds -
        (t0 + 10000 - t0)) = 1490000
      rw [ha_rem]; omega
    have hb_run : (stop (t0 + 10000) (start t0 freshTimer)).isTimerRunning = false :=
      stop_not_running _ _
    have hc := start_of_not_running (t0 + 50000) _ hb_run
    have hc_run : (start (t0 + 50000)
        (stop (t0 + 10000) (start t0 freshTimer))).isTimerRunning = true := by rw [hc]
    have hc_st : (start (t0 + 50000)
        (stop (t0 + 10000) (start t0 freshTimer))).timerStartTime
        = some (t0 + 50000) := by rw [hc]
    have hc_rem : (start (t0 + 50000)
        (stop (t0 + 10000) (start t0 freshTimer))).timeRemainingInMilliseconds
        = 1490000 := by rw [hc]; exact hb_rem
    refine ⟨?_, ?_, hb_run, ?_⟩
    · rw [getState_running (t0 + 10000) _ t0 ha_run ha_st (by omega), ha_rem]
      omega
    · rw [hb_rem]; norm_num
    · rw [getState_running (t0 + 60000) _ (t0 + 50000) hc_run hc_st (by omega), hc_rem]
      omega

/-- Witness for C2: a clock started at epoch 5 and stopped at epoch 10,
with the scenario run at start epoch `t0 = 1`. -/
theorem stop_freezes_and_resume_exact_witness :
    (start 5 freshTimer).isTimerRunning = true ∧
    (start 5 freshTimer).timerStartTime = some 5 ∧
    (0 : Int) < 1 ∧
    (((stop 10 (start 5 freshTimer)).timeRemainingInMilliseconds =
        max 0 ((start 5 freshTimer).timeRemainingInMilliseconds - (10 - 5)) ∧
      (stop 10 (start 5 freshTimer)).isTimerRunning = false ∧
      (stop 10 (start 5 freshTimer)).timerStartTime = none) ∧
     ((getState (1 + 10000) (start 1 freshTimer)).timeRemaining =
        25 * 60 * 1000 - 10000 ∧
      (stop (1 + 10000) (start 1 freshTimer)).timeRemainingInMilliseconds =
        25 * 60 * 1000 - 10000 ∧
      (stop (1 + 10000) (start 1 freshTimer)).isTimerRunning = false ∧
      (getState (1 + 60000)
         (start (1 + 50000)
           (stop (1 + 10000) (start 1 freshTimer)))).timeRemaining =
        25 * 60 * 1000 - 10000 - 10000)) :=
  ⟨by decide, by decide, by decide,
   stop_freezes_and_resume_exact (start 5 freshTimer) 10 5 1
     (by decide) (by decide) (by decide)⟩

/-! ### Claim C1: rejection of out-of-range settings -/

/-- C1 counterexample: the background `updateSettings` itself performs no
range validation and returns no error: called directly with
`{workMinutes: 0}` on a paused fresh clock it mutates the clock state
(the stored work duration becomes 0 and, being paused, the remaining
time is reseeded to 0 ms), instead of rejecting with `InvalidConfig`
and leaving the state unchanged. -/
theorem updateSettings_workTime_zero_mutates :
    updateSettings freshTimer
        { workTime := some 0, shortBreak := none, longBreak := none,
          longBreakInterval := none } ≠ freshTimer ∧
    (updateSettings freshTimer
        { workTime := some 0, shortBreak := none, longBreak := none,
          longBreakInterval := none }).settings.workTime = 0 ∧
    (updateSettings freshTimer
        { workTime := some 0, shortBreak := none, longBreak := none,
          longBreakInterval := none }).timeRemainingInMilliseconds = 0 := by
  decide

/-- C1 (amended): the range validation lives in the caller — the popup's
save-settings flow — not in `updateSettings`: whenever any field is
outside its allowed range (`workMinutes` 1-60, `shortBreakMinutes`
1-30, `longBreakMinutes` 1-60, `longBreakInterval` 2-10), the flow
rejects with `InvalidConfig` before any message reaches the timer, so
the clock state is unchanged; in particular `workMinutes = 0` is
rejected there. -/
theorem settings_flow_rejects_out_of_range (w sb lb i : Int) (t : Timer)
    (h : ¬(1 ≤ w ∧ w ≤ 60 ∧ 1 ≤ sb ∧ sb ≤ 30 ∧
           1 ≤ lb ∧ lb ≤ 60 ∧ 2 ≤ i ∧ i ≤ 10)) :
    saveSettingsFlow w sb lb i t = Except.error ConfigError.invalidConfig := by
  have hb : validTimerSettings w sb lb i = false := by
    simp [validTimerSettings]
    omega
  simp [saveSettingsFlow, hb]

/-- Witness for C1: saving `workMinutes = 0` through the popup flow. -/
theorem settings_flow_rejects_out_of_range_witness :
    ¬(1 ≤ (0 : Int) ∧ (0 : Int) ≤ 60 ∧ 1 ≤ (5 : Int) ∧ (5 : Int) ≤ 30 ∧
      1 ≤ (15 : Int) ∧ (15 : Int) ≤ 60 ∧ 2 ≤ (4 : Int) ∧ (4 : Int) ≤ 10) ∧
    saveSettingsFlow 0 5 15 4 freshTimer = Except.error ConfigError.invalidConfig :=
  ⟨by decide, settings_flow_rejects_out_of_range 0 5 15 4 freshTimer (by decide)⟩

/-! ### Claim C6: persistence round trip -/

/-- C6 counterexample: saving a clock that is paused with exactly 0 ms
remaining and loading it back does not reproduce the same clock:
`loadTimerState` reseeds the remaining time to the full phase duration
(here 25 minutes), so the round trip is not field-for-field identity. -/
theorem persisted_roundtrip_not_identity_at_zero_remaining :
    loadTimerState freshTimer
        (some (saveTimerState { freshTimer with timeRemainingInMilliseconds := 0 }))
      ≠ { freshTimer with timeRemainingInMilliseconds := 0 } ∧
    ({ freshTimer with timeRemainingInMilliseconds := 0 } : Timer).isTimerRunning
      = false ∧
    (loadTimerState freshTimer
        (some (saveTimerState
          { freshTimer with timeRemainingInMilliseconds := 0 }))).timeRemainingInMilliseconds
      = 1500000 := by
  decide

/-- C6 (amended): save-then-load reproduces the five persisted fields
(`running`, `phase`, remaining ms, completed count, start timestamp)
identically whenever the saved clock is running or has nonzero
remaining time (otherwise load reseeds the remaining time) and its
start timestamp is not exactly `some 0` (which load's `|| null`
truthiness maps to `none`); the `durations` are not part of the
persisted clock projection — the loading instance keeps its own
settings, which are persisted separately under the `timerSettings`
key. -/
theorem persisted_roundtrip_identity_when_resumable (t st : Timer)
    (h1 : st.isTimerRunning = true ∨ st.timeRemainingInMilliseconds ≠ 0)
    (h2 : st.timerStartTime ≠ some 0) :
    (loadTimerState t (some (saveTimerState st))).isTimerRunning = st.isTimerRunning ∧
    (loadTimerState t (some (saveTimerState st))).currentPhase = st.currentPhase ∧
    (loadTimerState t (some (saveTimerState st))).timeRemainingInMilliseconds =
      st.timeRemainingInMilliseconds ∧
    (loadTimerState t (some (saveTimerState st))).completedPomodoros =
      st.completedPomodoros ∧
    (loadTimerState t (some (saveTimerState st))).timerStartTime = st.timerStartTime ∧
    (loadTimerState t (some (saveTimerState st))).settings = t.settings := by
  obtain ⟨r, ph, rem, cnt, stt, se⟩ := st
  unfold loadTimerState saveTimerState
  dsimp only at h1 h2 ⊢
  have hst : (if optIntTruthy stt then stt else none) = stt := by
    cases stt with
    | none => simp [optIntTruthy]
    | some n =>
      have hn : n ≠ 0 := fun h0 => h2 (by rw [h0])
      simp [optIntTruthy, hn]
  have hcond : ¬(r = false ∧ rem = 0) := by
    rcases h1 with h | h <;> simp [h]
  rw [hst, if_neg hcond]
  exact ⟨rfl, rfl, rfl, rfl, rfl, rfl⟩

/-- Witness for C6: a clock started at epoch 99, restored into a fresh
instance. -/
theorem persisted_roundtrip_identity_when_resumable_witness :
    ((start 99 freshTimer).isTimerRunning = true ∨
     (start 99 freshTimer).timeRemainingInMilliseconds ≠ 0) ∧
    (start 99 freshTimer).timerStartTime ≠ some 0 ∧
    ((loadTimerState freshTimer
        (some (saveTimerState (start 99 freshTimer)))).isTimerRunning =
       (start 99 freshTimer).isTimerRunning ∧
     (loadTimerState freshTimer
        (some (saveTimerState (start 99 freshTimer)))).currentPhase =
       (start 99 freshTimer).currentPhase ∧
     (loadTimerState freshTimer
        (some (saveTimerState (start 99 freshTimer)))).timeRemainingInMilliseconds =
       (start 99 freshTimer).timeRemainingInMilliseconds ∧
     (loadTimerState freshTimer
        (some (saveTimerState (start 99 freshTimer)))).completedPomodoros =
       (start 99 freshTimer).completedPomodoros ∧
     (loadTimerState freshTimer
        (some (saveTimerState (start 99 freshTimer)))).timerStartTime =
       (start 99 freshTimer).timerStartTime ∧
     (loadTimerState freshTimer
        (some (saveTimerState (start 99 freshTimer)))).settings =
       freshTimer.settings) :=
  ⟨Or.inl (by decide), by decide,
   persisted_roundtrip_identity_when_resumable freshTimer (start 99 freshTimer)
     (Or.inl (by decide)) (by decide)⟩

/-! ### Claim C10: load reseeds a paused clock with zero remaining time -/

/-- C10: when the restored clock is not running and its restored remaining
time is 0 (either stored as 0, or absent with the in-memory field still
at its zero default), `loadTimerState` reseeds the remaining time to
the full duration of the restored phase instead of leaving it at 0. -/
theorem load_reseeds_paused_zero_remaining (t : Timer) (p : PersistedClock)
    (hrun : p.isRunning = false)
    (hrem : (match p.timeRemaining with
             | some r => r
             | none => t.timeRemainingInMilliseconds) = 0) :
    (loadTimerState t (some p)).currentPhase = p.currentPhase ∧
    (loadTimerState t (some p)).timeRemainingInMilliseconds =
      getPhaseTimeInMilliseconds t.settings p.currentPhase := by
  unfold loadTimerState
  dsimp only
  cases hp : p.timeRemaining with
  | some r =>
    rw [hp] at hrem
    simp only at hrem
    simp [hp, hrun, hrem]
  | none =>
    rw [hp] at hrem
    simp only at hrem
    simp [hp, hrun, hrem]

/-- Witness for C10: a clock persisted while paused in LongBreak with
exactly 0 ms remaining comes back with the full long-break duration. -/
theorem load_reseeds_paused_zero_remaining_witness :
    (loadTimerState freshTimer
        (some { isRunning := false, currentPhase := Phase.longBreak,
                completedPomodoros := 3, startTime := none,
                timeRemaining := some 0 })).currentPhase = Phase.longBreak ∧
    (loadTimerState freshTimer
        (some { isRunning := false, currentPhase := Phase.longBreak,
                completedPomodoros := 3, startTime := none,
                timeRemaining := some 0 })).timeRemainingInMilliseconds =
      getPhaseTimeInMilliseconds freshTimer.settings Phase.longBreak :=
  load_reseeds_paused_zero_remaining freshTimer
    { isRunning := false, currentPhase := Phase.longBreak,
      completedPomodoros := 3, startTime := none, timeRemaining := some 0 }
    (by decide) (by decide)

/-! ### Claim C7: ordering of the completion event -/

/-- C7 counterexample: in the step trace of `complete()` on a running
clock that just elapsed, the `timerCompleted` message carrying the
`(completedPhase, nextPhase, completedCount)` tuple is NOT emitted
before the phase mutation and counter increment — it is the last step,
after both. -/
theorem completion_message_not_before_mutation :
    ¬ messageBeforeMutation (completeTrace 1500005 (start 5 freshTimer)).1 := by
  decide

theorem completeTrace_state (now : Int) (t : Timer) :
    (completeTrace now t).2 = complete now t := by
  unfold completeTrace complete
  dsimp only
  split
  · split <;> rfl
  · rfl

/-- C7 (amended): the tuple-carrying completion event is emitted as the
last step of `complete()`, after the phase mutation and counter
increment (the only pre-mutation emission is the notification text,
which carries phase names, not the tuple); listeners can nevertheless
distinguish old from new phase because the event's `completedPhase`
field is the phase captured before the mutation while `nextPhase` and
`completedPomodoros` are the post-mutation values. -/
theorem completion_event_after_phase_mutation (now : Int) (t : Timer) :
    (completeTrace now t).2 = complete now t ∧
    ∃ e : CompletionEvent,
      (completeTrace now t).1.getLast? = some (CompleteStep.sendCompletionMessage e) ∧
      (∀ a ∈ (completeTrace now t).1.dropLast, isCompletionMessage a = false) ∧
      CompleteStep.setPhase ((completeTrace now t).2.currentPhase) ∈
        (completeTrace now t).1.dropLast ∧
      e.completedPhase = t.currentPhase ∧
      e.nextPhase = (completeTrace now t).2.currentPhase ∧
      e.completedPomodoros = (completeTrace now t).2.completedPomodoros := by
  refine ⟨completeTrace_state now t, ?_⟩
  unfold completeTrace
  dsimp only
  simp only [stop_currentPhase, stop_completedPomodoros, stop_settings]
  by_cases hw : t.currentPhase = Phase.work
  · simp only [hw, if_pos]
    by_cases hm : Int.tmod (t.completedPomodoros + 1) t.settings.longBreakInterval = 0
    · simp only [hm, if_pos]
      refine ⟨{ completedPhase := Phase.work, nextPhase := Phase.longBreak,
                completedPomodoros := t.completedPomodoros + 1 },
              ?_, ?_, ?_, ?_, ?_, ?_⟩
      · simp [List.getLast?]
      · simp [isCompletionMessage]
      · simp
      · simp [hw]
      · rfl
      · rfl
    · simp only [hm, if_neg, not_false_iff]
      refine ⟨{ completedPhase := Phase.work, nextPhase := Phase.shortBreak,
                completedPomodoros := t.completedPomodoros + 1 },
              ?_, ?_, ?_, ?_, ?_, ?_⟩
      · simp [List.getLast?]
      · simp [isCompletionMessage]
      · simp
      · simp [hw]
      · rfl
      · rfl
  · simp only [hw, if_neg, not_false_iff]
    refine ⟨{ completedPhase := t.currentPhase, nextPhase := Phase.work,
              completedPomodoros := t.completedPomodoros },
            ?_, ?_, ?_, ?_, ?_, ?_⟩
    · simp [List.getLast?]
    · simp [isCompletionMessage]
    · simp
    · rfl
    · rfl
    · rfl

/-- Witness for C7: the completion of a fresh default clock started at
epoch 5 and elapsed at 1500005. -/
theorem completion_event_after_phase_mutation_witness :
    (completeTrace 1500005 (start 5 freshTimer)).2 =
      complete 1500005 (start 5 freshTimer) ∧
    ∃ e : CompletionEvent,
      (completeTrace 1500005 (start 5 freshTimer)).1.getLast? =
        some (CompleteStep.sendCompletionMessage e) ∧
      (∀ a ∈ (completeTrace 1500005 (start 5 freshTimer)).1.dropLast,
        isCompletionMessage a = false) ∧
      CompleteStep.setPhase ((completeTrace 1500005 (start 5 freshTimer)).2.currentPhase) ∈
        (completeTrace 1500005 (start 5 freshTimer)).1.dropLast ∧
      e.completedPhase = (start 5 freshTimer).currentPhase ∧
      e.nextPhase = (completeTrace 1500005 (start 5 freshTimer)).2.currentPhase ∧
      e.completedPomodoros =
        (completeTrace 1500005 (start 5 freshTimer)).2.completedPomodoros :=
  completion_event_after_phase_mutation 1500005 (start 5 freshTimer)

/-! ### Claim C3: remaining time stays within the phase duration -/

theorem clockInv_mono (t : Timer) (n1 n2 : Int) (h : ClockInv n1 t)
    (hle : n1 ≤ n2) : ClockInv n2 t := by
  obtain ⟨h1, h2, h3, h4⟩ := h
  exact ⟨h1, h2, fun s hs => le_trans (h3 s hs) hle, h4⟩

theorem start_preserves_inv (now : Int) (t : Timer) (h : ClockInv now t) :
    ClockInv now (start now t) := by
  obtain ⟨h1, h2, h3, h4⟩ := h
  unfold start
  split
  · exact ⟨h1, h2, h3, h4⟩
  · refine ⟨h1, h2, ?_, ?_⟩
    · intro s hs
      dsimp at hs
      injection hs with hs
      omega
    · intro _
      simp

theorem stop_preserves_inv (now : Int) (t : Timer) (h : ClockInv now t) :
    ClockInv now (stop now t) := by
  obtain ⟨h1, h2, h3, h4⟩ := h
  unfold stop
  split
  · exact ⟨h1, h2, h3, h4⟩
  · rename_i hr
    have hrun : t.isTimerRunning = true := by
      cases hx : t.isTimerRunning
      · rw [hx] at hr; simp at hr
      · rfl
    obtain ⟨s0, hs0⟩ : ∃ s0, t.timerStartTime = some s0 := by
      cases hx : t.timerStartTime
      · exact absurd (hx ▸ h4 hrun) (by simp)
      · exact ⟨_, rfl⟩
    have hle : s0 ≤ now := h3 s0 hs0
    rw [hs0]
    refine ⟨?_, ?_, ?_, ?_⟩
    · exact le_max_left 0 _
    · dsimp [optIntToNumber]
      omega
    · intro s hs
      dsimp at hs
      exact absurd hs (by simp)
    · intro hfalse
      dsimp at hfalse
      exact absurd hfalse (by simp)

theorem runTrace_inv (ops : List (Int × ClockOp)) :
    ∀ (lo now : Int) (t : Timer), ClockInv lo t → timesBounded lo ops now →
      ClockInv now (runTrace ops t) := by
  induction ops with
  | nil =>
    intro lo now t h hb
    exact clockInv_mono t lo now h hb
  | cons hd tl ih =>
    intro lo now t h hb
    obtain ⟨n, op⟩ := hd
    obtain ⟨hlo, htl⟩ := hb
    have h1 : ClockInv n t := clockInv_mono t lo n h hlo
    have h2 : ClockInv n (applyOp op n t) := by
      cases op
      · exact start_preserves_inv n t h1
      · exact stop_preserves_inv n t h1
    exact ih n now (applyOp op n t) h2 htl

theorem initial_inv (s : TimerSettings) (lo : Int) (hs : ValidSettings s) :
    ClockInv lo (initialTimer s) := by
  obtain ⟨hw, _⟩ := hs
  unfold initialTimer initializeTimer
  refine ⟨?_, ?_, ?_, ?_⟩
  · simp [getPhaseTimeInMilliseconds]
    omega
  · simp [getPhaseTimeInMilliseconds]
  · intro s' hs'
    simp at hs'
  · intro hfalse
    simp at hfalse

theorem getState_bounds (now : Int) (t : Timer) (h : ClockInv now t) :
    0 ≤ (getState now t).timeRemaining ∧
    (getState now t).timeRemaining ≤
      getPhaseTimeInMilliseconds t.settings t.currentPhase := by
  obtain ⟨h1, h2, h3, h4⟩ := h
  unfold getState
  dsimp only
  split
  · rename_i hc
    cases hx : t.timerStartTime with
    | none => rw [hx] at hc; simp [optIntTruthy] at hc
    | some s0 =>
      have hs0 : s0 ≤ now := h3 s0 hx
      dsimp [optIntToNumber]
      constructor
      · exact le_max_left 0 _
      · omega
  · exact ⟨h1, h2⟩

/-- C3: for every valid durations setting and every start/stop command
sequence with nondecreasing wall-clock timestamps, the frozen
`baselineRemainingMs` stays within `[0, phaseDurationMs(phase)]`, and
the `remainingMs` reported by `getState` at any later time is
nonnegative and never exceeds the reported `totalMs` of the current
phase. -/
theorem remaining_time_never_exceeds_phase_duration (s : TimerSettings)
    (ops : List (Int × ClockOp)) (lo now : Int)
    (hs : ValidSettings s) (hb : timesBounded lo ops now) :
    0 ≤ (runTrace ops (initialTimer s)).timeRemainingInMilliseconds ∧
    (runTrace ops (initialTimer s)).timeRemainingInMilliseconds ≤
      getPhaseTimeInMilliseconds (runTrace ops (initialTimer s)).settings
        (runTrace ops (initialTimer s)).currentPhase ∧
    0 ≤ (getState now (runTrace ops (initialTimer s))).timeRemaining ∧
    (getState now (runTrace ops (initialTimer s))).timeRemaining ≤
      (getState now (runTrace ops (initialTimer s))).totalTime := by
  have hinv := runTrace_inv ops lo now (initialTimer s) (initial_inv s lo hs) hb
  have hg := getState_bounds now _ hinv
  have htt : (getState now (runTrace ops (initialTimer s))).totalTime =
      getPhaseTimeInMilliseconds (runTrace ops (initialTimer s)).settings
        (runTrace ops (initialTimer s)).currentPhase := rfl
  exact ⟨hinv.1, hinv.2.1, hg.1, htt ▸ hg.2⟩

/-- Witness for C3: default settings, a start at 5 and a stop at 10, read
at time 20. -/
theorem remaining_time_never_exceeds_phase_duration_witness :
    ValidSettings defaultSettings ∧
    timesBounded 0 [(5, ClockOp.startOp), (10, ClockOp.stopOp)] 20 ∧
    (0 ≤ (runTrace [(5, ClockOp.startOp), (10, ClockOp.stopOp)]
           (initialTimer defaultSettings)).timeRemainingInMilliseconds ∧
     (runTrace [(5, ClockOp.startOp), (10, ClockOp.stopOp)]
        (initialTimer defaultSettings)).timeRemainingInMilliseconds ≤
       getPhaseTimeInMilliseconds
         (runTrace [(5, ClockOp.startOp), (10, ClockOp.stopOp)]
           (initialTimer defaultSettings)).settings
         (runTrace [(5, ClockOp.startOp), (10, ClockOp.stopOp)]
           (initialTimer defaultSettings)).currentPhase ∧
     0 ≤ (getState 20 (runTrace [(5, ClockOp.startOp), (10, ClockOp.stopOp)]
           (initialTimer defaultSettings))).timeRemaining ∧
     (getState 20 (runTrace [(5, ClockOp.startOp), (10, ClockOp.stopOp)]
        (initialTimer defaultSettings))).timeRemaining ≤
       (getState 20 (runTrace [(5, ClockOp.startOp), (10, ClockOp.stopOp)]
         (initialTimer defaultSettings))).totalTime) :=
  ⟨by simp [ValidSettings, defaultSettings],
   by simp [timesBounded],
   remaining_time_never_exceeds_phase_duration defaultSettings
     [(5, ClockOp.startOp), (10, ClockOp.stopOp)] 0 20
     (by simp [ValidSettings, defaultSettings]) (by simp [timesBounded])⟩

end StudyBuddy
